import Mathlib

/-!
Shallow embedding of the sync-auth-api authentication service
(`auth_service/`): the credential hasher and token issuer of
`utils/security.py`, the configuration loading of `config/settings.py`,
the account store of `db/db_methods.py`, and the `/register` and
`/login` flows of `routes/auth.py`.

Python strings are Lean `String`s, `dict` claims payloads are
association lists, the database table is a list of rows, and Python
exceptions are the error side of `Except`.  Nondeterministic inputs of
the code (the clock reading, the bcrypt salt entropy, the generated
uuid, rows committed concurrently by other requests) are explicit
parameters.
-/

namespace SyncAuth

/-- Python exceptions that the embedded code can raise.  `httpException`
is FastAPI's `HTTPException(status_code, detail)`; `valueError` and
`typeError` are the built-in exceptions raised by `int(...)`, by
`bcrypt` on a malformed salt, and by `jwt.encode` on a non-string key;
`integrityError` is SQLAlchemy's unique-constraint violation;
`argumentError` is SQLAlchemy's bad-connection-string error. -/
inductive PyErr where
  | httpException (status : Nat) (detail : String)
  | valueError (msg : String)
  | typeError (msg : String)
  | integrityError
  | argumentError (msg : String)
deriving Repr, DecidableEq

/-! ## Credential hasher (`utils/security.py`, bcrypt primitives)

`hash_password` and `verify_password` delegate to the `bcrypt` library:
`hashpw(password, salt)` parses the modular-crypt salt string
(`$2b$` + two cost digits + `$` + 22 salt characters), raises
`ValueError("Invalid salt")` when it does not parse, and otherwise
returns the salt prefix followed by the derived checksum;
`checkpw(password, hashed)` recomputes `hashpw(password, hashed)` —
re-using the stored digest as the salt string — and compares the result
with the stored digest.  `gensalt()` returns `$2b$12$` + 22 characters
of salt.  The key-derivation checksum itself is
"Modelled from the spec": §4.1 describes an expensive deterministic
derivation of (cost, salt, password); we model it as an ideal injective
function of those inputs (base64/Blowfish details and the 72-byte
truncation of the real primitive are outside the repository). -/

/-- Modelled from the spec: the bcrypt key derivation (missing from the
repository; `bcrypt`'s EksBlowfish is an external library).  An ideal
deterministic primitive, injective in the password for a fixed cost and
salt. -/
def bcryptKdfData (cost : Nat) (salt : List Char) (password : List Char) : List Char :=
  Nat.toDigits 10 cost ++ '|' :: salt ++ '|' :: password

/-- Parse a bcrypt modular-crypt salt string: `$2b$` then two cost
digits, `$`, and at least 22 remaining characters; the first 22 are the
salt, the rest (a checksum, when the input is a full digest) is
ignored.  Returns the two cost digits and the 22 salt characters. -/
def parseBcryptSaltData : List Char → Option (Char × Char × List Char)
  | '$' :: '2' :: 'b' :: '$' :: c1 :: c2 :: '$' :: rest =>
      if c1.isDigit && c2.isDigit && decide (22 ≤ rest.length) then
        some (c1, c2, rest.take 22)
      else
        none
  | _ => none

/-- Numeric value of a decimal digit character. -/
def digitVal (c : Char) : Nat := c.toNat - 48

/-- `bcrypt.hashpw(password, salt)`: parse the salt (raising
`ValueError` on failure, as the library does) and return the
reconstructed salt prefix followed by the derived checksum. -/
def hashpwData (password salt : List Char) : Except PyErr (List Char) :=
  match parseBcryptSaltData salt with
  | none => .error (.valueError "Invalid salt")
  | some (c1, c2, s22) =>
      .ok ('$' :: '2' :: 'b' :: '$' :: c1 :: c2 :: '$' ::
        (s22 ++ bcryptKdfData (digitVal c1 * 10 + digitVal c2) s22 password))

/-- `bcrypt.checkpw(password, hashed)`: recompute
`hashpw(password, hashed)` and compare with `hashed`; a parse failure
of `hashed` propagates as the `ValueError` from `hashpw`. -/
def checkpwData (password hashed : List Char) : Except PyErr Bool :=
  (hashpwData password hashed).map (fun recomputed => recomputed == hashed)

/-- 22 filler characters: `gensalt` always emits exactly 22 characters
of salt; the entropy argument is padded so every entropy value yields a
well-formed salt, as the OS randomness does. -/
def saltFiller : List Char :=
  ['.', '.', '.', '.', '.', '.', '.', '.', '.', '.', '.',
   '.', '.', '.', '.', '.', '.', '.', '.', '.', '.', '.']

/-- The 22 salt characters derived from the entropy input. -/
def salt22 (entropy : List Char) : List Char :=
  (entropy ++ saltFiller).take 22

/-- `bcrypt.gensalt()`: a `$2b$12$` prefix (default cost 12) followed
by 22 characters of salt drawn from the entropy input. -/
def gensaltData (entropy : List Char) : List Char :=
  '$' :: '2' :: 'b' :: '$' :: '1' :: '2' :: '$' :: salt22 entropy

/-- `hash_password(password)` of `utils/security.py`:
`bcrypt.hashpw(password.encode("utf-8"), bcrypt.gensalt()).decode("utf-8")`.
The salt entropy consumed by `gensalt` is an explicit argument.
`gensalt` output always parses, so the error branch is unreachable. -/
def hash_password (password : String) (entropy : String) : String :=
  match hashpwData password.data (gensaltData entropy.data) with
  | .ok digest => ⟨digest⟩
  | .error _ => ""

/-- `verify_password(password, hashed_password)` of `utils/security.py`:
`bcrypt.checkpw(password.encode("utf-8"), hashed_password.encode("utf-8"))`.
Exceptions from `checkpw` propagate to the caller. -/
def verify_password (password hashed_password : String) : Except PyErr Bool :=
  checkpwData password.data hashed_password.data

/-! ## Configuration (`config/settings.py`) and engine (`db/database.py`) -/

/-- The process environment: `os.environ`. -/
def Env := List (String × String)

/-- `os.environ.get(key)`: `None` when the variable is unset. -/
def envGet (env : Env) (key : String) : Option String :=
  (List.find? (fun p => p.1 == key) env).map (fun p => p.2)

/-- The three module-level values of `config/settings.py`, each read
with `os.environ.get` and so `None` when unset.  Loading never raises:
the module performs no validation. -/
structure Settings where
  auth_database_url : Option String
  jwt_secret : Option String
  token_expire_mins : Option String
deriving Repr, DecidableEq

/-- Import of `config/settings.py`: three `os.environ.get` reads, no
validation, no failure. -/
def loadSettings (env : Env) : Settings :=
  ⟨envGet env "AUTH_DATABASE_URL", envGet env "JWT_SECRET",
    envGet env "TOKEN_EXPIRE_MINS"⟩

/-- `true` from the first position where `://` starts. -/
def hasUrlSepFrom : List Char → Bool
  | ':' :: '/' :: '/' :: _ => true
  | _ :: rest => hasUrlSepFrom rest
  | [] => false

/-- A string SQLAlchemy's `make_url` accepts: a non-empty dialect name
followed by `://` and the rest of the URL (detail of the external
library, reduced to the shape check that decides acceptance). -/
def validDbUrlData : List Char → Bool
  | [] => false
  | ':' :: _ => false
  | _ :: rest => hasUrlSepFrom rest

/-- A constructed SQLAlchemy engine, carrying its connection string. -/
structure Engine where
  url : String
deriving Repr, DecidableEq

/-- `create_engine(AUTH_DATABASE_URL)` in `db/database.py`, executed at
module import: raises `ArgumentError` when the URL is `None` or does
not parse. -/
def create_engine (url : Option String) : Except PyErr Engine :=
  match url with
  | none => .error (.argumentError "Expected string or URL object, got None")
  | some u =>
      if validDbUrlData u.data then .ok ⟨u⟩
      else .error (.argumentError "Could not parse SQLAlchemy URL")

/-- Service startup (`main.py` import chain): loading `settings.py`
always succeeds; importing `db/database.py` runs
`create_engine(AUTH_DATABASE_URL)`, whose failure aborts startup.  No
other configuration value is touched before the first request. -/
def startup (env : Env) : Except PyErr Engine :=
  create_engine (loadSettings env).auth_database_url

/-! ## Token issuer (`utils/security.py`, `create_access_token`) -/

/-- A JSON-able claims value: the payloads built by the flows hold
strings (`sub`, `email`) and the integer `exp`. -/
inductive ClaimVal where
  | str (s : String)
  | int (n : Int)
deriving Repr, DecidableEq

/-- A Python `dict` used as a JWT claims payload: an insertion-ordered
association list with unique keys. -/
abbrev ClaimsMap := List (String × ClaimVal)

/-- `d[k] = v` on a Python dict: replace the value at an existing key
(keeping its position), or append the new binding at the end. -/
def setKey : ClaimsMap → String → ClaimVal → ClaimsMap
  | [], k, v => [(k, v)]
  | (k', v') :: rest, k, v =>
      if k' == k then (k', v) :: rest else (k', v') :: setKey rest k v

/-- `d.get(k)` on a Python dict. -/
def lookupClaim (m : ClaimsMap) (k : String) : Option ClaimVal :=
  (List.find? (fun p => p.1 == k) m).map (fun p => p.2)

/-- Decimal value of a digit list (most significant first). -/
def decVal (l : List Char) : Nat :=
  l.foldl (fun a c => a * 10 + digitVal c) 0

/-- Strip leading and trailing spaces, as Python `int` does before
parsing. -/
def stripSpaces (l : List Char) : List Char :=
  ((l.dropWhile (fun c => c == ' ')).reverse.dropWhile (fun c => c == ' ')).reverse

/-- Python `int(s)` on a string: optional sign then one or more
decimal digits (after stripping surrounding spaces); anything else
raises `ValueError`. -/
def pyIntOfString (s : String) : Except PyErr Int :=
  match stripSpaces s.data with
  | '-' :: rest =>
      if rest ≠ [] ∧ rest.all Char.isDigit then .ok (-(decVal rest : Int))
      else .error (.valueError "invalid literal for int() with base 10")
  | '+' :: rest =>
      if rest ≠ [] ∧ rest.all Char.isDigit then .ok (decVal rest : Int)
      else .error (.valueError "invalid literal for int() with base 10")
  | rest =>
      if rest ≠ [] ∧ rest.all Char.isDigit then .ok (decVal rest : Int)
      else .error (.valueError "invalid literal for int() with base 10")

/-- Python `int(x)` where `x` came from `os.environ.get`: `int(None)`
raises `TypeError`; a string is parsed as `pyIntOfString`. -/
def pyInt : Option String → Except PyErr Int
  | none => .error (.typeError "int() argument must be a string, not NoneType")
  | some s => pyIntOfString s

/-- JSON rendering of one claims value (string escaping omitted: the
claims built by the flows contain no special characters). -/
def claimValJson : ClaimVal → String
  | .str s => "\"" ++ s ++ "\""
  | .int n => toString n

/-- JSON rendering of the claims payload, in insertion order. -/
def claimsJson (m : ClaimsMap) : String :=
  "\x7b" ++ String.intercalate ","
    (m.map (fun p => "\"" ++ p.1 ++ "\":" ++ claimValJson p.2)) ++ "\x7d"

/-- The fixed JOSE header for `HS256`. -/
def jwtHeader : String := "\x7b\"alg\":\"HS256\",\"typ\":\"JWT\"\x7d"

/-- Modelled from the spec: `HMAC-SHA256 over header+payload, symmetric
secret key` (the real compression function is the external `hashlib`
primitive).  A deterministic keyed tag over the signing input. -/
def hmacSHA256 (key msg : String) : String :=
  "hs256tag:" ++ toString key.length ++ ":" ++ key ++ ":" ++ msg

/-- `jwt.encode(payload, key, algorithm="HS256")` of PyJWT: a `None`
key raises `TypeError` from the HMAC key preparation; any string key —
the empty string included — signs and returns the compact form
`header.payload.signature` (base64url transport coding omitted: it is
a bijection on each segment). -/
def jwt_encode (payload : ClaimsMap) (key : Option String) : Except PyErr String :=
  match key with
  | none => .error (.typeError "Expected a string value")
  | some k =>
      let signingInput := jwtHeader ++ "." ++ claimsJson payload
      .ok (signingInput ++ "." ++ hmacSHA256 k signingInput)

/-- `create_access_token(data)` of `utils/security.py`, with the
ambient state as arguments: `cfg` holds the module-level
`TOKEN_EXPIRE_MINS` and `JWT_SECRET`, `now` is the `int(time.time())`
clock reading.  The statement `data["exp"] = exp_timestamp` mutates the
caller's dict; the returned pair carries the token together with that
final state of the caller's mapping.  In source order:
`int(TOKEN_EXPIRE_MINS)` may raise before anything else happens; then
the expiry is computed and stored; then `jwt.encode` runs. -/
def create_access_token (data : ClaimsMap) (cfg : Settings) (now : Int) :
    Except PyErr (String × ClaimsMap) :=
  match pyInt cfg.token_expire_mins with
  | .error e => .error e
  | .ok mins =>
      let seconds_until_expiry := mins * 60
      let exp_timestamp := now + seconds_until_expiry
      let data2 := setKey data "exp" (.int exp_timestamp)
      match jwt_encode data2 cfg.jwt_secret with
      | .error e => .error e
      | .ok token => .ok (token, data2)

/-! ## Account store (`models/user.py`, `db/db_methods.py`) -/

/-- A row of the `auth_users` table (`AuthUser` in `models/user.py`):
integer primary key, unique non-null `email`, non-null
`hashed_password`, unique non-null `sub`. -/
structure AuthUser where
  user_id : Nat
  email : String
  hashed_password : String
  sub : String
deriving Repr, DecidableEq

/-- The `auth_users` table, in insertion order. -/
abbrev Db := List AuthUser

/-- `get_user_by_email(db, email)` of `db/db_methods.py`:
`db.query(AuthUser).filter(AuthUser.email == email).first()` — the
first row whose `email` matches exactly, else `None`. -/
def get_user_by_email (db : Db) (email : String) : Option AuthUser :=
  List.find? (fun u => u.email == email) db

/-- `create_user(db, email, hashed_password, sub)` of
`db/db_methods.py`: insert and commit a new row.  The commit raises
`IntegrityError` when the unique constraint on `email` or on `sub` is
violated; `create_user` then rolls the transaction back (the table is
unchanged) and re-raises.  On success the refreshed row (with its
auto-generated primary key) and the new table are returned. -/
def create_user (db : Db) (email hashed_password sub : String) :
    Except PyErr (AuthUser × Db) :=
  if db.any (fun u => u.email == email) || db.any (fun u => u.sub == sub) then
    .error .integrityError
  else
    let auth_user : AuthUser := ⟨db.length + 1, email, hashed_password, sub⟩
    .ok (auth_user, db ++ [auth_user])

/-! ## HTTP flows (`routes/auth.py`) -/

/-- `UserRegister` of `models/user.py`: a validated request body. -/
structure UserRegister where
  email : String
  password : String
deriving Repr, DecidableEq

/-- `UserLogin` of `models/user.py`: a validated request body. -/
structure UserLogin where
  email : String
  password : String
deriving Repr, DecidableEq

/-- The success body of both endpoints:
`{"access_token": token, "token_type": "bearer"}`. -/
structure TokenResponse where
  access_token : String
  token_type : String
deriving Repr, DecidableEq

/-- `register(user, db)` of `routes/auth.py`.  Explicit arguments for
the nondeterministic inputs: `uuid` is the `str(uuid.uuid4())` value,
`entropy` feeds `bcrypt.gensalt()`, `now` is the clock, and
`concurrent` holds rows committed by other requests between this
request's duplicate-email lookup and its own `create_user` commit (the
race window; empty when the request runs alone).  The duplicate check
raises `HTTPException(400)`; any exception from `create_user` or
`create_access_token` propagates uncaught.  The returned table is the
state of `auth_users` after the request. -/
def register (db : Db) (user : UserRegister) (uuid entropy : String)
    (concurrent : List AuthUser) (cfg : Settings) (now : Int) :
    Except PyErr TokenResponse × Db :=
  match get_user_by_email db user.email with
  | some _ =>
      (.error (.httpException 400 "That email is already registered"), db ++ concurrent)
  | none =>
      let new_sub := uuid
      let hashed_pw := hash_password user.password entropy
      let dbAtCreate := db ++ concurrent
      match create_user dbAtCreate user.email hashed_pw new_sub with
      | .error e => (.error e, dbAtCreate)
      | .ok (auth_user, db2) =>
          match create_access_token
              [("sub", .str auth_user.sub), ("email", .str auth_user.email)] cfg now with
          | .error e => (.error e, db2)
          | .ok (token, _) => (.ok ⟨token, "bearer"⟩, db2)

/-- `login(user, db)` of `routes/auth.py`:
`if not auth_user or not verify_password(...)` raises
`HTTPException(400, "Invalid username or password")`; the `or`
short-circuits, so the hash comparison runs only when a row was found.
Exceptions from `verify_password` or `create_access_token`
propagate uncaught. -/
def login (db : Db) (user : UserLogin) (cfg : Settings) (now : Int) :
    Except PyErr TokenResponse :=
  match get_user_by_email db user.email with
  | none => .error (.httpException 400 "Invalid username or password")
  | some auth_user =>
      match verify_password user.password auth_user.hashed_password with
      | .error e => .error e
      | .ok false => .error (.httpException 400 "Invalid username or password")
      | .ok true =>
          match create_access_token
              [("sub", .str auth_user.sub), ("email", .str auth_user.email)] cfg now with
          | .error e => .error e
          | .ok (token, _) => .ok ⟨token, "bearer"⟩

/-- A JSON response body as the caller sees it. -/
inductive Body where
  | detail (d : String)
  | token (access_token token_type : String)
  | internalServerError
deriving Repr, DecidableEq

/-- An HTTP response: status code and body. -/
structure HttpResponse where
  status : Nat
  body : Body
deriving Repr, DecidableEq

/-- FastAPI's boundary: a 200 with the returned JSON on success, the
status and `{"detail": ...}` body of a raised `HTTPException`, and a
bare 500 for any other uncaught exception. -/
def toResponse : Except PyErr TokenResponse → HttpResponse
  | .ok r => ⟨200, .token r.access_token r.token_type⟩
  | .error (.httpException s d) => ⟨s, .detail d⟩
  | .error _ => ⟨500, .internalServerError⟩

/-- `true` exactly when the computation returned normally (raised no
exception). -/
def succeeds {α : Type} : Except PyErr α → Bool
  | .ok _ => true
  | .error _ => false

/-! ## Lemmas about the hasher -/

theorem salt22_length (e : List Char) : (salt22 e).length = 22 := by
  simp [salt22, saltFiller]

theorem parseBcryptSaltData_digest (c1 c2 : Char) (s22 rest : List Char)
    (h1 : c1.isDigit = true) (h2 : c2.isDigit = true) (hs : s22.length = 22) :
    parseBcryptSaltData ('$' :: '2' :: 'b' :: '$' :: c1 :: c2 :: '$' :: (s22 ++ rest)) =
      some (c1, c2, s22) := by
  have hcond : (c1.isDigit && c2.isDigit && decide (22 ≤ (s22 ++ rest).length)) = true := by
    simp only [h1, h2, List.length_append, hs, Bool.and_eq_true, decide_eq_true_eq]
    exact ⟨⟨trivial, trivial⟩, by omega⟩
  simp only [parseBcryptSaltData, hcond, if_true, List.take_left' hs]

theorem parseBcryptSaltData_gensalt (e : List Char) :
    parseBcryptSaltData (gensaltData e) = some ('1', '2', salt22 e) := by
  have h : (salt22 e).length = 22 := salt22_length e
  have := parseBcryptSaltData_digest '1' '2' (salt22 e) [] (by decide) (by decide) h
  simpa [gensaltData] using this

theorem hashpwData_gensalt (p e : List Char) :
    hashpwData p (gensaltData e) =
      .ok ('$' :: '2' :: 'b' :: '$' :: '1' :: '2' :: '$' ::
        (salt22 e ++ bcryptKdfData 12 (salt22 e) p)) := by
  have h12 : digitVal '1' * 10 + digitVal '2' = 12 := by decide
  simp [hashpwData, parseBcryptSaltData_gensalt, h12]

theorem hash_password_eq (password entropy : String) :
    hash_password password entropy =
      ⟨'$' :: '2' :: 'b' :: '$' :: '1' :: '2' :: '$' ::
        (salt22 entropy.data ++ bcryptKdfData 12 (salt22 entropy.data) password.data)⟩ := by
  simp [hash_password, hashpwData_gensalt]

theorem bcryptKdfData_inj_password {cost : Nat} {salt p q : List Char}
    (h : bcryptKdfData cost salt p = bcryptKdfData cost salt q) : p = q := by
  unfold bcryptKdfData at h
  simp only [List.append_cancel_left_eq, List.cons.injEq, true_and] at h
  exact h

theorem hashpwData_digest (pw s22 rest : List Char) (hs : s22.length = 22) :
    hashpwData pw ('$' :: '2' :: 'b' :: '$' :: '1' :: '2' :: '$' :: (s22 ++ rest)) =
      .ok ('$' :: '2' :: 'b' :: '$' :: '1' :: '2' :: '$' ::
        (s22 ++ bcryptKdfData 12 s22 pw)) := by
  have h12 : digitVal '1' * 10 + digitVal '2' = 12 := by decide
  simp [hashpwData, parseBcryptSaltData_digest '1' '2' s22 rest (by decide) (by decide) hs,
    h12]

/-! ## Lemmas about claims payloads -/

theorem lookupClaim_setKey_self (m : ClaimsMap) (k : String) (v : ClaimVal) :
    lookupClaim (setKey m k v) k = some v := by
  induction m with
  | nil => simp [setKey, lookupClaim, List.find?]
  | cons p rest ih =>
      by_cases hk : p.1 = k
      · have h1 : (p.1 == k) = true := beq_iff_eq.mpr hk
        simp [setKey, lookupClaim, List.find?, h1]
      · have h1 : (p.1 == k) = false := beq_eq_false_iff_ne.mpr hk
        simp only [lookupClaim] at ih
        simp [setKey, lookupClaim, List.find?, h1, ih]

theorem lookupClaim_setKey_ne (m : ClaimsMap) (k key : String) (v : ClaimVal)
    (hne : key ≠ k) :
    lookupClaim (setKey m k v) key = lookupClaim m key := by
  have hkk : (k == key) = false := beq_eq_false_iff_ne.mpr (Ne.symm hne)
  induction m with
  | nil => simp [setKey, lookupClaim, List.find?, hkk]
  | cons p rest ih =>
      by_cases hk : p.1 = k
      · have hpk : (p.1 == key) = false :=
          beq_eq_false_iff_ne.mpr (by rw [hk]; exact Ne.symm hne)
        have hpt : (p.1 == k) = true := beq_iff_eq.mpr hk
        simp [setKey, lookupClaim, List.find?, hpt, hkk, hpk]
      · have hbk : (p.1 == k) = false := beq_eq_false_iff_ne.mpr hk
        by_cases hp : p.1 = key
        · have hpk : (p.1 == key) = true := beq_iff_eq.mpr hp
          simp [setKey, lookupClaim, List.find?, hbk, hpk]
        · have hpk : (p.1 == key) = false := beq_eq_false_iff_ne.mpr hp
          simp only [lookupClaim] at ih
          simp [setKey, lookupClaim, List.find?, hbk, hpk, ih]

/-! ## Claims about the credential hasher -/

/-- C2: for every password string `p` (and every salt entropy value fed
to `bcrypt.gensalt`), verifying `p` against the digest produced by
hashing `p` succeeds: `verify_password(p, hash_password(p))` returns
`True`. -/
theorem verify_password_hash_password_roundtrip (p entropy : String) :
    verify_password p (hash_password p entropy) = .ok true := by
  have hs := salt22_length entropy.data
  rw [hash_password_eq]
  unfold verify_password checkpwData
  rw [show String.data
      ⟨'$' :: '2' :: 'b' :: '$' :: '1' :: '2' :: '$' ::
        (salt22 entropy.data ++ bcryptKdfData 12 (salt22 entropy.data) p.data)⟩ =
      '$' :: '2' :: 'b' :: '$' :: '1' :: '2' :: '$' ::
        (salt22 entropy.data ++ bcryptKdfData 12 (salt22 entropy.data) p.data) from rfl]
  rw [hashpwData_digest p.data _ _ hs]
  simp [Except.map]

/-- C3: for every pair of distinct password strings `p ≠ q` (and every
salt entropy), verifying `q` against the digest produced by hashing `p`
fails: `verify_password(q, hash_password(p))` returns `False`. -/
theorem verify_password_rejects_wrong_password (p q entropy : String) (hne : p ≠ q) :
    verify_password q (hash_password p entropy) = .ok false := by
  have hs := salt22_length entropy.data
  rw [hash_password_eq]
  unfold verify_password checkpwData
  rw [show String.data
      ⟨'$' :: '2' :: 'b' :: '$' :: '1' :: '2' :: '$' ::
        (salt22 entropy.data ++ bcryptKdfData 12 (salt22 entropy.data) p.data)⟩ =
      '$' :: '2' :: 'b' :: '$' :: '1' :: '2' :: '$' ::
        (salt22 entropy.data ++ bcryptKdfData 12 (salt22 entropy.data) p.data) from rfl]
  rw [hashpwData_digest q.data _ _ hs]
  have hkdf : bcryptKdfData 12 (salt22 entropy.data) q.data ≠
      bcryptKdfData 12 (salt22 entropy.data) p.data := by
    intro habs
    exact hne (String.ext (bcryptKdfData_inj_password habs)).symm
  simp [Except.map, hkdf]

/-- Witness for C3 at concrete passwords. -/
theorem verify_password_rejects_wrong_password_witness :
    ("pw1" : String) ≠ "wrong" ∧
    verify_password "wrong" (hash_password "pw1" "abc") = .ok false :=
  ⟨by decide, verify_password_rejects_wrong_password "pw1" "wrong" "abc" (by decide)⟩

/-- C5 counterexample: `"garbage"` fails to parse as a bcrypt digest,
and `verify_password` raises `ValueError` (as `bcrypt.checkpw` does)
instead of returning `False`. -/
theorem verify_password_malformed_counterexample :
    parseBcryptSaltData "garbage".data = none ∧
    verify_password "pw" "garbage" = .error (.valueError "Invalid salt") ∧
    succeeds (verify_password "pw" "garbage") = false := by
  refine ⟨rfl, rfl, rfl⟩

/-- C5 (amended): for every password and every digest string that fails
to parse as a bcrypt salt/digest, `verify_password` raises (propagates
`bcrypt`'s `ValueError("Invalid salt")`) rather than returning
`False`. -/
theorem verify_password_malformed_raises (p d : String)
    (h : parseBcryptSaltData d.data = none) :
    verify_password p d = .error (.valueError "Invalid salt") := by
  simp [verify_password, checkpwData, hashpwData, h, Except.map]

/-- Witness for the amended C5 at a second malformed digest. -/
theorem verify_password_malformed_raises_witness :
    verify_password "secret" "$2y$12$notavalidbcryptsalt" =
      .error (.valueError "Invalid salt") :=
  verify_password_malformed_raises "secret" "$2y$12$notavalidbcryptsalt" (by rfl)

/-! ## Claims about the token issuer and configuration -/

theorem create_access_token_bad_config (data : ClaimsMap) (cfg : Settings) (now : Int)
    (h : cfg.jwt_secret = none ∨ ∃ e, pyInt cfg.token_expire_mins = .error e) :
    succeeds (create_access_token data cfg now) = false := by
  rcases h with hsec | ⟨e, he⟩
  · unfold create_access_token
    cases hp : pyInt cfg.token_expire_mins with
    | error e2 => simp [succeeds]
    | ok mins => simp [jwt_encode, hsec, succeeds]
  · simp [create_access_token, he, succeeds]

/-- C6 (amended): token issuance raises an exception — producing no
token at all — when the signing secret is absent (`None`) or when
`TOKEN_EXPIRE_MINS` is missing or does not parse as an integer.  (An
empty-string secret and a non-positive integer TTL are, however,
accepted: see the counterexample.) -/
theorem create_access_token_fails_on_missing_config (data : ClaimsMap) (cfg : Settings)
    (now : Int)
    (h : cfg.jwt_secret = none ∨ ∃ e, pyInt cfg.token_expire_mins = .error e) :
    succeeds (create_access_token data cfg now) = false :=
  create_access_token_bad_config data cfg now h

/-- Witness for the amended C6: with no secret in the environment,
issuance fails. -/
theorem create_access_token_fails_on_missing_config_witness :
    succeeds (create_access_token [("sub", ClaimVal.str "x")]
      ⟨none, none, some "30"⟩ 0) = false :=
  create_access_token_fails_on_missing_config [("sub", ClaimVal.str "x")]
    ⟨none, none, some "30"⟩ 0 (Or.inl rfl)

/-- C6 counterexample: with the signing secret set to the empty string
and `TOKEN_EXPIRE_MINS = "0"` — an integer that is not positive —
issuance succeeds and returns a token, contradicting the claim that it
must fail in those cases. -/
theorem create_access_token_counterexample :
    (⟨none, some "", some "0"⟩ : Settings).jwt_secret = some "" ∧
    pyInt (some "0") = .ok 0 ∧
    succeeds (create_access_token [("sub", ClaimVal.str "x")]
      ⟨none, some "", some "0"⟩ 5) = true := by
  refine ⟨rfl, rfl, rfl⟩

/-- C8: for every claims mapping, when `TOKEN_EXPIRE_MINS` parses to
`mins` and a signing secret is present, the `exp` claim written into
the encoded payload equals `now + mins * 60`; for a positive TTL this
expiry is strictly greater than the issuance time. -/
theorem create_access_token_exp_formula (data : ClaimsMap) (cfg : Settings)
    (now mins : Int) (k : String)
    (h1 : pyInt cfg.token_expire_mins = .ok mins)
    (h2 : cfg.jwt_secret = some k) :
    (create_access_token data cfg now).map (fun r => lookupClaim r.2 "exp") =
      .ok (some (.int (now + mins * 60))) ∧
    (0 < mins → now < now + mins * 60) := by
  constructor
  · simp [create_access_token, h1, h2, jwt_encode, Except.map, lookupClaim_setKey_self]
  · intro h
    omega

/-- Witness for C8 with a 30-minute TTL at clock reading 100. -/
theorem create_access_token_exp_formula_witness :
    (create_access_token [("sub", ClaimVal.str "s1")] ⟨none, some "k", some "30"⟩ 100).map
      (fun r => lookupClaim r.2 "exp") = .ok (some (.int (100 + 30 * 60))) ∧
    (100 : Int) < 100 + 30 * 60 :=
  ⟨(create_access_token_exp_formula [("sub", ClaimVal.str "s1")] ⟨none, some "k", some "30"⟩
      100 30 "k" rfl rfl).1,
   (create_access_token_exp_formula [("sub", ClaimVal.str "s1")] ⟨none, some "k", some "30"⟩
      100 30 "k" rfl rfl).2 (by decide)⟩

/-- C10: on every successful issuance, the caller's claims mapping ends
up exactly as `setKey data "exp" (now + mins * 60)` — the computed
expiry is readable under `"exp"`, and every other key maps to the value
it had before the call. -/
theorem create_access_token_mutates_only_exp (data : ClaimsMap) (cfg : Settings)
    (now mins : Int) (k key : String)
    (h1 : pyInt cfg.token_expire_mins = .ok mins)
    (h2 : cfg.jwt_secret = some k)
    (hkey : key ≠ "exp") :
    (create_access_token data cfg now).map (fun r => r.2) =
      .ok (setKey data "exp" (.int (now + mins * 60))) ∧
    (create_access_token data cfg now).map (fun r => lookupClaim r.2 "exp") =
      .ok (some (.int (now + mins * 60))) ∧
    (create_access_token data cfg now).map (fun r => lookupClaim r.2 key) =
      .ok (lookupClaim data key) := by
  refine ⟨?_, ?_, ?_⟩ <;>
    simp [create_access_token, h1, h2, jwt_encode, Except.map,
      lookupClaim_setKey_self, lookupClaim_setKey_ne _ _ _ _ hkey]

/-- Witness for C10: the `"email"` claim of a concrete payload is
untouched by issuance. -/
theorem create_access_token_mutates_only_exp_witness :
    (create_access_token [("sub", ClaimVal.str "s1"), ("email", ClaimVal.str "a@x.com")]
        ⟨none, some "k", some "30"⟩ 100).map (fun r => r.2) =
      .ok (setKey [("sub", ClaimVal.str "s1"), ("email", ClaimVal.str "a@x.com")]
        "exp" (.int (100 + 30 * 60))) ∧
    (create_access_token [("sub", ClaimVal.str "s1"), ("email", ClaimVal.str "a@x.com")]
        ⟨none, some "k", some "30"⟩ 100).map (fun r => lookupClaim r.2 "exp") =
      .ok (some (.int (100 + 30 * 60))) ∧
    (create_access_token [("sub", ClaimVal.str "s1"), ("email", ClaimVal.str "a@x.com")]
        ⟨none, some "k", some "30"⟩ 100).map (fun r => lookupClaim r.2 "email") =
      .ok (lookupClaim [("sub", ClaimVal.str "s1"), ("email", ClaimVal.str "a@x.com")]
        "email") :=
  create_access_token_mutates_only_exp
    [("sub", ClaimVal.str "s1"), ("email", ClaimVal.str "a@x.com")]
    ⟨none, some "k", some "30"⟩ 100 30 "k" "email" rfl rfl (by decide)

/-- C9 counterexample: an environment with a valid connection string
but neither `TOKEN_EXPIRE_MINS` nor `JWT_SECRET` set — both missing —
still starts up successfully, contradicting the claim that the service
fails at startup in that case. -/
theorem startup_missing_ttl_counterexample :
    (loadSettings [("AUTH_DATABASE_URL", "sqlite:///auth.db")]).token_expire_mins = none ∧
    (loadSettings [("AUTH_DATABASE_URL", "sqlite:///auth.db")]).jwt_secret = none ∧
    startup [("AUTH_DATABASE_URL", "sqlite:///auth.db")] = .ok ⟨"sqlite:///auth.db"⟩ := by
  refine ⟨rfl, rfl, rfl⟩

/-- C9 (amended): only the connection string is validated at startup
(by `create_engine` at import time).  A missing `AUTH_DATABASE_URL`
aborts startup with `ArgumentError`, as does one that does not parse
as a database URL; with a present, well-formed `AUTH_DATABASE_URL`,
startup succeeds even when the signing secret is absent or the TTL is
missing or non-numeric — those configuration errors surface only at
the first token issuance, which raises. -/
theorem startup_lazy_config (env : Env) (data : ClaimsMap) (now : Int) :
    ((loadSettings env).auth_database_url = none →
      startup env = .error (.argumentError "Expected string or URL object, got None")) ∧
    (∀ u, (loadSettings env).auth_database_url = some u →
      validDbUrlData u.data = false →
      startup env = .error (.argumentError "Could not parse SQLAlchemy URL")) ∧
    (∀ u, (loadSettings env).auth_database_url = some u →
      validDbUrlData u.data = true →
      startup env = .ok ⟨u⟩) ∧
    (((loadSettings env).jwt_secret = none ∨
        ∃ e, pyInt (loadSettings env).token_expire_mins = .error e) →
      succeeds (create_access_token data (loadSettings env) now) = false) := by
  refine ⟨?_, ?_, ?_,
    fun hbad => create_access_token_bad_config data (loadSettings env) now hbad⟩
  · intro h
    simp [startup, create_engine, h]
  · intro u hu hv
    simp [startup, create_engine, hu, hv]
  · intro u hu hv
    simp [startup, create_engine, hu, hv]

/-- Witness for the amended C9: startup aborts on a missing and on a
malformed connection string, and an environment that sets only a valid
connection string starts up but fails at the first issuance. -/
theorem startup_lazy_config_witness :
    startup [] = .error (.argumentError "Expected string or URL object, got None") ∧
    startup [("AUTH_DATABASE_URL", "notaurl")] =
      .error (.argumentError "Could not parse SQLAlchemy URL") ∧
    startup [("AUTH_DATABASE_URL", "sqlite:///auth.db")] = .ok ⟨"sqlite:///auth.db"⟩ ∧
    succeeds (create_access_token [("sub", ClaimVal.str "x")]
      (loadSettings [("AUTH_DATABASE_URL", "sqlite:///auth.db")]) 0) = false :=
  ⟨(startup_lazy_config [] [("sub", ClaimVal.str "x")] 0).1 rfl,
   (startup_lazy_config [("AUTH_DATABASE_URL", "notaurl")]
      [("sub", ClaimVal.str "x")] 0).2.1 "notaurl" rfl rfl,
   (startup_lazy_config [("AUTH_DATABASE_URL", "sqlite:///auth.db")]
      [("sub", ClaimVal.str "x")] 0).2.2.1 "sqlite:///auth.db" rfl rfl,
   (startup_lazy_config [("AUTH_DATABASE_URL", "sqlite:///auth.db")]
      [("sub", ClaimVal.str "x")] 0).2.2.2
     (Or.inr ⟨.typeError "int() argument must be a string, not NoneType", rfl⟩)⟩

/-! ## Claims about the flows -/

/-- C1: a login whose email matches no stored account and a login whose
email matches an account but whose password fails verification produce
exactly the same outcome — the same raised error, and at the HTTP
boundary the same 400 response with body
`{"detail": "Invalid username or password"}`. -/
theorem login_failure_branches_indistinguishable (db : Db) (r1 r2 : UserLogin)
    (u : AuthUser) (cfg : Settings) (now : Int)
    (h1 : get_user_by_email db r1.email = none)
    (h2 : get_user_by_email db r2.email = some u)
    (h3 : verify_password r2.password u.hashed_password = .ok false) :
    login db r1 cfg now = login db r2 cfg now ∧
    login db r1 cfg now = .error (.httpException 400 "Invalid username or password") ∧
    toResponse (login db r1 cfg now) =
      ⟨400, .detail "Invalid username or password"⟩ ∧
    toResponse (login db r2 cfg now) =
      ⟨400, .detail "Invalid username or password"⟩ := by
  refine ⟨?_, ?_, ?_, ?_⟩ <;> simp [login, h1, h2, h3, toResponse]

/-- Witness for C1: an unregistered email and a wrong password against
a one-row table yield the identical 400 response. -/
theorem login_failure_branches_indistinguishable_witness :
    login [⟨1, "a@x.com", hash_password "pw1" "abc", "s1"⟩] ⟨"nobody@x.com", "any"⟩
        ⟨none, some "k", some "30"⟩ 7 =
      login [⟨1, "a@x.com", hash_password "pw1" "abc", "s1"⟩] ⟨"a@x.com", "wrong"⟩
        ⟨none, some "k", some "30"⟩ 7 ∧
    login [⟨1, "a@x.com", hash_password "pw1" "abc", "s1"⟩] ⟨"nobody@x.com", "any"⟩
        ⟨none, some "k", some "30"⟩ 7 =
      .error (.httpException 400 "Invalid username or password") ∧
    toResponse (login [⟨1, "a@x.com", hash_password "pw1" "abc", "s1"⟩]
        ⟨"nobody@x.com", "any"⟩ ⟨none, some "k", some "30"⟩ 7) =
      ⟨400, .detail "Invalid username or password"⟩ ∧
    toResponse (login [⟨1, "a@x.com", hash_password "pw1" "abc", "s1"⟩]
        ⟨"a@x.com", "wrong"⟩ ⟨none, some "k", some "30"⟩ 7) =
      ⟨400, .detail "Invalid username or password"⟩ :=
  login_failure_branches_indistinguishable
    [⟨1, "a@x.com", hash_password "pw1" "abc", "s1"⟩]
    ⟨"nobody@x.com", "any"⟩ ⟨"a@x.com", "wrong"⟩
    ⟨1, "a@x.com", hash_password "pw1" "abc", "s1"⟩ ⟨none, some "k", some "30"⟩ 7
    rfl rfl (verify_password_rejects_wrong_password "pw1" "wrong" "abc" (by decide))

/-- C7: a registration for an email already on file fails with the 400
`"That email is already registered"` response, leaves the table exactly
as it was, and — running alone — its outcome is independent of the uuid
and of the salt entropy: no subject id is consumed and no password is
hashed for the failed request. -/
theorem register_duplicate_email_unchanged (db : Db) (user : UserRegister)
    (u : AuthUser) (uuid uuid' entropy entropy' : String) (cfg : Settings) (now : Int)
    (h : get_user_by_email db user.email = some u) :
    register db user uuid entropy [] cfg now =
      (.error (.httpException 400 "That email is already registered"), db) ∧
    toResponse (register db user uuid entropy [] cfg now).1 =
      ⟨400, .detail "That email is already registered"⟩ ∧
    register db user uuid entropy [] cfg now =
      register db user uuid' entropy' [] cfg now := by
  refine ⟨?_, ?_, ?_⟩ <;> simp [register, h, toResponse]

/-- Witness for C7: re-registering the one stored email. -/
theorem register_duplicate_email_unchanged_witness :
    register [⟨1, "a@x.com", "h", "s1"⟩] ⟨"a@x.com", "pw2"⟩ "u2" "e2" []
        ⟨none, some "k", some "30"⟩ 9 =
      (.error (.httpException 400 "That email is already registered"),
        [⟨1, "a@x.com", "h", "s1"⟩]) ∧
    toResponse (register [⟨1, "a@x.com", "h", "s1"⟩] ⟨"a@x.com", "pw2"⟩ "u2" "e2" []
        ⟨none, some "k", some "30"⟩ 9).1 =
      ⟨400, .detail "That email is already registered"⟩ ∧
    register [⟨1, "a@x.com", "h", "s1"⟩] ⟨"a@x.com", "pw2"⟩ "u2" "e2" []
        ⟨none, some "k", some "30"⟩ 9 =
      register [⟨1, "a@x.com", "h", "s1"⟩] ⟨"a@x.com", "pw2"⟩ "other-uuid" "other-entropy" []
        ⟨none, some "k", some "30"⟩ 9 :=
  register_duplicate_email_unchanged [⟨1, "a@x.com", "h", "s1"⟩] ⟨"a@x.com", "pw2"⟩
    ⟨1, "a@x.com", "h", "s1"⟩ "u2" "other-uuid" "e2" "other-entropy"
    ⟨none, some "k", some "30"⟩ 9 rfl

/-- C4 counterexample: a registration that loses the race — the
duplicate-email lookup passes on its table snapshot, but a concurrent
registration for the same email commits before `create_user` — ends in
the store's `IntegrityError` propagating uncaught, a 500 at the HTTP
boundary; it is not the `DuplicateEmail` 400 with
`"That email is already registered"`. -/
theorem register_race_counterexample :
    (register [] ⟨"a@x.com", "pw1"⟩ "u1" "e" [⟨9, "a@x.com", "h", "s9"⟩]
        ⟨none, none, none⟩ 0).1 = .error .integrityError ∧
    toResponse (register [] ⟨"a@x.com", "pw1"⟩ "u1" "e" [⟨9, "a@x.com", "h", "s9"⟩]
        ⟨none, none, none⟩ 0).1 = ⟨500, .internalServerError⟩ ∧
    PyErr.integrityError ≠ .httpException 400 "That email is already registered" := by
  refine ⟨rfl, rfl, by decide⟩

/-- C4 (amended): when the store reports a uniqueness violation at
create time (the email appears in the table visible to `create_user`
although the initial lookup found none), `register` re-raises the
`IntegrityError` uncaught — a 500 at the boundary, with the rolled-back
table — instead of surfacing the `DuplicateEmail` 400 of the lookup
check. -/
theorem register_race_integrity_error (db : Db) (user : UserRegister)
    (uuid entropy : String) (concurrent : List AuthUser) (cfg : Settings) (now : Int)
    (h1 : get_user_by_email db user.email = none)
    (h2 : (db ++ concurrent).any (fun u => u.email == user.email) = true) :
    register db user uuid entropy concurrent cfg now =
      (.error .integrityError, db ++ concurrent) ∧
    toResponse (register db user uuid entropy concurrent cfg now).1 =
      ⟨500, .internalServerError⟩ := by
  refine ⟨?_, ?_⟩ <;> simp [register, h1, create_user, h2, toResponse]

/-- Witness for the amended C4: an empty table, one concurrent commit
of the same email. -/
theorem register_race_integrity_error_witness :
    register [] ⟨"b@x.com", "pw1"⟩ "u1" "e" [⟨9, "b@x.com", "h", "s9"⟩]
        ⟨none, none, none⟩ 0 =
      (.error .integrityError, [] ++ [⟨9, "b@x.com", "h", "s9"⟩]) ∧
    toResponse (register [] ⟨"b@x.com", "pw1"⟩ "u1" "e" [⟨9, "b@x.com", "h", "s9"⟩]
        ⟨none, none, none⟩ 0).1 = ⟨500, .internalServerError⟩ :=
  register_race_integrity_error [] ⟨"b@x.com", "pw1"⟩ "u1" "e"
    [⟨9, "b@x.com", "h", "s9"⟩] ⟨none, none, none⟩ 0 rfl rfl

end SyncAuth
